import Mathlib

/-!
Verification of the challenge-handling views of boost.dev
(`challenges/views.py`) and the `correctness_level` backfill migration
(`challenges/migrations/fix_correctness_level.py`).

The core subject is the free-text parsing inside `generate_ai_challenge`,
which turns the raw AI response plus a hint mapping into a
`(title, description, hints[3])` draft.  Strings are embedded as `List Char`
(`Str`), and the Python string primitives used by the code — `str.strip`,
`str.split` on a newline, `str.startswith`, `str.replace` (which replaces
every occurrence) — are reproduced below on that representation.  The
whitespace set is the ASCII whitespace Python strips.
-/

namespace BoostDev

/-- Strings are modelled as lists of characters. -/
abbrev Str := List Char

/-- The characters Python `str.strip()` removes (ASCII whitespace). -/
def pySpace (c : Char) : Bool :=
  c == ' ' || c == '\t' || c == '\n' || c == '\r' || c == '\x0b' || c == '\x0c'

/-- Python `s.strip()`: drop leading and trailing whitespace. -/
def strip (s : Str) : Str :=
  ((s.dropWhile pySpace).reverse.dropWhile pySpace).reverse

/-- Python `s.split('\n')`: split at every newline; no merging of empty
pieces, and the empty string yields one empty piece. -/
def splitOnNl : Str → List Str
  | [] => [[]]
  | c :: rest =>
    match splitOnNl rest with
    | [] => [[c]]
    | l :: ls => if c = '\n' then [] :: l :: ls else (c :: l) :: ls

/-- Auxiliary scanner for `removeAll`: `skip` counts characters still to be
dropped from an occurrence already matched. -/
def removeAllAux (pat : Str) : Nat → Str → Str
  | _, [] => []
  | Nat.succ k, _ :: rest => removeAllAux pat k rest
  | 0, c :: rest =>
    if pat.isPrefixOf (c :: rest) then removeAllAux pat (pat.length - 1) rest
    else c :: removeAllAux pat 0 rest

/-- Python `s.replace(pat, "")` for a non-empty `pat`: delete every
(left-to-right, non-overlapping) occurrence of `pat` from `s`. -/
def removeAll (pat : Str) (s : Str) : Str :=
  removeAllAux pat 0 s

/-- The section state of the line scanner in `generate_ai_challenge`
(`current_section` is `None`, `"title"` or `"description"`). -/
inductive Section where
  | none
  | title
  | description
deriving DecidableEq

/-- The mutable state of the line-scanning loop. -/
structure ParseState where
  title : Str
  description : Str
  current_section : Section
deriving DecidableEq

/-- Marker `"TITLE:"`. -/
def titleMarker : Str := "TITLE:".data

/-- Marker `"DESCRIPTION:"`. -/
def descriptionMarker : Str := "DESCRIPTION:".data

/-- Marker `"HINT"`. -/
def hintMarker : Str := "HINT".data

/-- One iteration of the `for line in lines` loop of
`generate_ai_challenge` (views.py lines 192-202). -/
def processLine (st : ParseState) (rawLine : Str) : ParseState :=
  let line := strip rawLine
  if line = [] then st
  else if titleMarker.isPrefixOf line then
    { st with title := strip (removeAll titleMarker line),
              current_section := Section.title }
  else if descriptionMarker.isPrefixOf line then
    { st with current_section := Section.description }
  else if st.current_section = Section.description ∧ hintMarker.isPrefixOf line = false then
    { st with description := st.description ++ line ++ ['\n'] }
  else st

/-- The three built-in fallback hints (views.py lines 204-208). -/
def default_hint_1 : Str :=
  "Start by breaking down the problem into smaller parts. What\x27s the first step you would take?".data

/-- Second built-in fallback hint. -/
def default_hint_2 : Str :=
  "Consider edge cases and how your solution handles different inputs. What assumptions are you making?".data

/-- Third built-in fallback hint. -/
def default_hint_3 : Str :=
  "Look at your algorithm\x27s efficiency. Can you optimize it further? Remember to test your solution with various inputs.".data

/-- `default_hints` list from the source. -/
def default_hints : List Str := [default_hint_1, default_hint_2, default_hint_3]

/-- The hint mapping `result["hints"]`: keys to optional strings.  A key may
be absent, or present with value `None` — both produce `Option.none` under
`getHint`, exactly as Python `dict.get`. -/
abbrev HintMap := List (String × Option Str)

/-- Python `hint_map.get(k)`: `None` both for an absent key and for a key
stored with value `None`. -/
def getHint (hint_map : HintMap) (k : String) : Option Str :=
  match hint_map.lookup k with
  | some v => v
  | Option.none => Option.none

/-- One iteration of the hint loop (views.py lines 210-214):
`if ai_hints[i] and ai_hints[i].strip(): use stripped value else default`. -/
def resolveHint (v : Option Str) (dflt : Str) : Str :=
  match v with
  | some s => if s ≠ [] ∧ strip s ≠ [] then strip s else dflt
  | Option.none => dflt

/-- The parsed draft: title, description, and the three hints. -/
structure Draft where
  title : Str
  description : Str
  hints : List Str
deriving DecidableEq

/-- The parsing/normalisation routine of `generate_ai_challenge`
(views.py lines 188-218): strip the blob, split into lines, run the
section scanner, then apply the title default, the final
`description.strip()`, and the per-slot hint fallback. -/
def parse (raw_text : Str) (hint_map : HintMap) : Draft :=
  let lines := splitOnNl (strip raw_text)
  let st := lines.foldl processLine ⟨[], [], Section.none⟩
  { title := if st.title = [] then "AI Generated Challenge".data else st.title,
    description := strip st.description,
    hints := [resolveHint (getHint hint_map "hint_1") default_hint_1,
              resolveHint (getHint hint_map "hint_2") default_hint_2,
              resolveHint (getHint hint_map "hint_3") default_hint_3] }

/-!
The remaining code under verification: the valid-POST path of
`submit_solution` (views.py lines 135-162), the backfill
`set_default_correctness_level` of the migration, and the challenge record
built by `generate_ai_challenge` (views.py lines 216-225).
-/

/-- The fallback feedback `submit_solution` stores when the AI call fails
(views.py line 159); it interpolates the requesting username. -/
def fallback_feedback (username : String) : String :=
  "Our AI assistant is taking a break, but your solution shows real effort, "
    ++ username ++ "! Keep exploring different approaches and don\x27t give up."

/-- The solution record as `submit_solution` saves it. -/
structure SolutionOutcome where
  saved : Bool
  is_correct : Bool
  correctness_level : String
  ai_feedback : String
deriving DecidableEq

/-- The valid-POST path of `submit_solution`: the AI feedback call is an
external collaborator that either returns feedback or raises; an exception
is caught and replaced by the fallback, and the solution is saved either
way (views.py lines 148-161). -/
def submit_solution (username : String) (feedback_result : Except String String) :
    SolutionOutcome :=
  let fb := match feedback_result with
    | Except.ok f => f
    | Except.error _ => fallback_feedback username
  { saved := true, is_correct := true, correctness_level := "correct",
    ai_feedback := fb }

/-- A `ChallengeSolution` row as the migration sees it: `correctness_level`
is `none` when the attribute is missing or null, `some v` otherwise. -/
structure ChallengeSolution where
  is_correct : Bool
  correctness_level : Option String
deriving DecidableEq

/-- Python falsiness of the `correctness_level` field: missing/null or the
empty string. -/
def blank_or_unset : Option String → Bool
  | Option.none => true
  | some v => v == ""

/-- One row of the backfill `set_default_correctness_level`
(fix_correctness_level.py lines 5-10). -/
def set_default_correctness_level (s : ChallengeSolution) : ChallengeSolution :=
  if s.is_correct && blank_or_unset s.correctness_level then
    { s with correctness_level := some "correct" }
  else if blank_or_unset s.correctness_level then
    { s with correctness_level := some "incorrect" }
  else s

/-- The backfill applied to every stored row. -/
def run_backfill (rows : List ChallengeSolution) : List ChallengeSolution :=
  rows.map set_default_correctness_level

/-- The result of the external AI generation call:
`{raw: string, hints: mapping}`. -/
structure GenResult where
  raw : Str
  hints : HintMap

/-- A challenge record with the fields `generate_ai_challenge` sets. -/
structure Challenge where
  title : Str
  description : Str
  difficulty : String
  hints : List Str
  is_ai_generated : Bool
  is_approved : Bool
deriving DecidableEq

/-- The challenge record built and saved by `generate_ai_challenge`
(views.py lines 216-224): the parsed draft plus the request difficulty,
with `is_ai_generated` and `is_approved` hard-coded to `True`. -/
def generate_ai_challenge (difficulty topic : String) (result : GenResult) :
    Challenge :=
  let draft := parse result.raw result.hints
  { title := draft.title, description := draft.description,
    difficulty := difficulty, hints := draft.hints,
    is_ai_generated := true, is_approved := true }

/-- The approved-only restriction of `challenge_list`
(views.py line 18: `Challenge.objects.filter(is_approved=True)`); the
detail view (line 82) imposes the same `is_approved=True` condition. -/
def challenge_list_filter (challenges : List Challenge) : List Challenge :=
  challenges.filter (fun c => c.is_approved)

/-- Unfolding of `strip` through Mathlib's `rdropWhile`. -/
theorem strip_eq_rdrop (s : Str) :
    strip s = List.rdropWhile pySpace (List.dropWhile pySpace s) := rfl

/-- A stripped string has no leading whitespace left to drop. -/
theorem dropWhile_strip (s : Str) :
    List.dropWhile pySpace (strip s) = strip s := by
  cases h : strip s with
  | nil => simp
  | cons a t =>
    have hpre := List.rdropWhile_prefix pySpace (List.dropWhile pySpace s)
    rw [← strip_eq_rdrop, h] at hpre
    obtain ⟨w, hw⟩ := hpre
    have h0 : 0 < (List.dropWhile pySpace s).length := by
      rw [← hw]; simp
    have hnp := List.dropWhile_get_zero_not pySpace s h0
    have hgz : (List.dropWhile pySpace s).get ⟨0, h0⟩ = a := by
      rw [List.get_of_eq hw.symm ⟨0, h0⟩]; rfl
    rw [hgz] at hnp
    rw [List.dropWhile_cons, if_neg hnp]

/-- Stripping is idempotent. -/
theorem strip_idem (s : Str) : strip (strip s) = strip s := by
  rw [strip_eq_rdrop (strip s), dropWhile_strip, strip_eq_rdrop s,
    List.rdropWhile_idempotent]

/-- A string with a non-empty literal at its head is non-empty. -/
theorem ne_nil_of_isPre {a : Char} {p l : Str}
    (h : List.isPrefixOf (a :: p) l = true) : l ≠ [] := by
  intro hnil
  rw [hnil] at h
  simp at h

/-- A string led by a non-empty literal starts with that literal's head. -/
theorem head_of_isPre {a : Char} {p l : Str}
    (h : List.isPrefixOf (a :: p) l = true) : ∃ t, l = a :: t := by
  cases l with
  | nil => simp at h
  | cons b t =>
    rw [List.isPrefixOf_cons₂] at h
    have hb : a = b := by
      have := (Bool.and_eq_true _ _).mp h
      exact eq_of_beq this.1
    exact ⟨t, by rw [hb]⟩

/-- Literals with different head characters cannot both lead a string. -/
theorem isPre_false_of_head_ne {a b : Char} {p q l : Str}
    (h : List.isPrefixOf (a :: p) l = true) (hne : (b == a) = false) :
    List.isPrefixOf (b :: q) l = false := by
  obtain ⟨t, ht⟩ := head_of_isPre h
  rw [ht, List.isPrefixOf_cons₂, hne, Bool.false_and]

/-- A blank line is skipped: state is unchanged. -/
theorem processLine_blank (st : ParseState) (l : Str) (h : strip l = []) :
    processLine st l = st := by
  simp [processLine, h]

/-- A `TITLE:` line overwrites `title` with the line after removing every
occurrence of `TITLE:` and stripping, and moves to the title section. -/
theorem processLine_title (st : ParseState) (l : Str)
    (h : titleMarker.isPrefixOf (strip l) = true) :
    processLine st l =
      { st with title := strip (removeAll titleMarker (strip l)),
                current_section := Section.title } := by
  have hne : strip l ≠ [] := ne_nil_of_isPre h
  simp [processLine, hne, h]

/-- A `DESCRIPTION:` line only switches the section: the line's own
content is discarded and `title`/`description` are untouched. -/
theorem processLine_description_marker (st : ParseState) (l : Str)
    (h : descriptionMarker.isPrefixOf (strip l) = true) :
    processLine st l = { st with current_section := Section.description } := by
  have hne : strip l ≠ [] := ne_nil_of_isPre h
  have hnt : titleMarker.isPrefixOf (strip l) = false :=
    isPre_false_of_head_ne h (by decide)
  simp [processLine, hne, h, hnt]

/-- A line starting with `HINT` never changes the state: it is not a
marker, and the description-append branch explicitly excludes it. -/
theorem processLine_hint (st : ParseState) (l : Str)
    (h : hintMarker.isPrefixOf (strip l) = true) :
    processLine st l = st := by
  have hne : strip l ≠ [] := ne_nil_of_isPre h
  have hnt : titleMarker.isPrefixOf (strip l) = false :=
    isPre_false_of_head_ne h (by decide)
  have hnd : descriptionMarker.isPrefixOf (strip l) = false :=
    isPre_false_of_head_ne h (by decide)
  simp [processLine, hne, h, hnt, hnd]

/-- Only `TITLE:` lines write to `title`. -/
theorem processLine_title_eq (st : ParseState) (l : Str)
    (h : titleMarker.isPrefixOf (strip l) = false) :
    (processLine st l).title = st.title := by
  simp only [processLine, h]
  split_ifs <;> first | rfl | contradiction

/-- Scanning lines none of which carries the `TITLE:` marker leaves
`title` unchanged. -/
theorem foldl_title_eq (ls : List Str) (st : ParseState)
    (h : ∀ l ∈ ls, titleMarker.isPrefixOf (strip l) = false) :
    (List.foldl processLine st ls).title = st.title := by
  induction ls generalizing st with
  | nil => rfl
  | cons a t ih =>
    rw [List.foldl_cons, ih _ (fun l hl => h l (List.mem_cons_of_mem a hl)),
      processLine_title_eq st a (h a (List.mem_cons_self a t))]

/-- Scanning lines none of which carries the `DESCRIPTION:` marker, from a
state outside the description section, leaves `description` unchanged and
stays outside the description section. -/
theorem foldl_description_eq (ls : List Str) (st : ParseState)
    (h : ∀ l ∈ ls, descriptionMarker.isPrefixOf (strip l) = false)
    (hst : st.current_section ≠ Section.description) :
    (List.foldl processLine st ls).description = st.description ∧
      (List.foldl processLine st ls).current_section ≠ Section.description := by
  induction ls generalizing st with
  | nil => exact ⟨rfl, hst⟩
  | cons a t ih =>
    have ha := h a (List.mem_cons_self a t)
    have hstep : (processLine st a).description = st.description ∧
        (processLine st a).current_section ≠ Section.description := by
      simp only [processLine, ha]
      split_ifs with h1 h2 h3 h4
      · exact ⟨rfl, hst⟩
      · exact ⟨rfl, by simp⟩
      · exact h3.elim
      · exact absurd h4.1 hst
      · exact ⟨rfl, hst⟩
    obtain ⟨h1, h2⟩ := hstep
    obtain ⟨h3, h4⟩ := ih (processLine st a) (fun l hl => h l (List.mem_cons_of_mem a hl)) h2
    exact ⟨by rw [List.foldl_cons, h3, h1], by rw [List.foldl_cons]; exact h4⟩

/-- The three hint slots of a parsed draft, each resolved from its own key
of the hint mapping against its own built-in default. -/
theorem parse_hints_eq (raw_text : Str) (hint_map : HintMap) :
    (parse raw_text hint_map).hints =
      [resolveHint (getHint hint_map "hint_1") default_hint_1,
       resolveHint (getHint hint_map "hint_2") default_hint_2,
       resolveHint (getHint hint_map "hint_3") default_hint_3] := rfl

/-- A resolved hint is non-blank whenever its default is non-blank. -/
theorem resolveHint_nonblank (v : Option Str) (d : Str) (hd : strip d ≠ []) :
    strip (resolveHint v d) ≠ [] := by
  cases v with
  | none => exact hd
  | some s =>
    by_cases hc : s ≠ [] ∧ strip s ≠ []
    · simp only [resolveHint, if_pos hc, strip_idem]
      exact hc.2
    · simp only [resolveHint, if_neg hc]
      exact hd

/-- Each of the three built-in default hints is non-blank. -/
theorem default_hints_nonblank :
    strip default_hint_1 ≠ [] ∧ strip default_hint_2 ≠ [] ∧
      strip default_hint_3 ≠ [] := by decide

/-- Every hint slot of every parsed draft is non-blank after trimming. -/
theorem parse_hints_nonblank (raw_text : Str) (hint_map : HintMap) :
    ∀ h ∈ (parse raw_text hint_map).hints, strip h ≠ [] := by
  intro h hmem
  rw [parse_hints_eq] at hmem
  simp only [List.mem_cons, List.not_mem_nil, or_false] at hmem
  rcases hmem with h1 | h2 | h3
  · rw [h1]; exact resolveHint_nonblank _ _ default_hints_nonblank.1
  · rw [h2]; exact resolveHint_nonblank _ _ default_hints_nonblank.2.1
  · rw [h3]; exact resolveHint_nonblank _ _ default_hints_nonblank.2.2

/-- The title of a parsed draft, exposed: the scanned title if non-empty,
else the fixed placeholder. -/
theorem parse_title_eq (raw_text : Str) (hint_map : HintMap) :
    (parse raw_text hint_map).title =
      (if (List.foldl processLine ⟨[], [], Section.none⟩
              (splitOnNl (strip raw_text))).title = []
       then "AI Generated Challenge".data
       else (List.foldl processLine ⟨[], [], Section.none⟩
              (splitOnNl (strip raw_text))).title) := rfl

/-- The description of a parsed draft, exposed: the accumulated buffer of
the scan, stripped. -/
theorem parse_description_eq (raw_text : Str) (hint_map : HintMap) :
    (parse raw_text hint_map).description =
      strip (List.foldl processLine ⟨[], [], Section.none⟩
              (splitOnNl (strip raw_text))).description := rfl

/-- Resolution of a present hint value: the trimmed value when non-blank,
else the slot default (the source's `s and s.strip()` test is equivalent
to non-blankness of the trimmed value). -/
theorem resolveHint_some (v d : Str) :
    resolveHint (some v) d = if strip v ≠ [] then strip v else d := by
  by_cases hv : strip v ≠ []
  · have hvne : v ≠ [] := by
      intro hnil; rw [hnil] at hv; exact hv rfl
    rw [resolveHint, if_pos ⟨hvne, hv⟩, if_pos hv]
  · rw [resolveHint, if_neg (fun hc => hv hc.2), if_neg hv]

/-- C1: for every raw text and every hint mapping, the parsed draft has
exactly 3 hints, none blank after trimming; slot i holds the mapping's
trimmed value for key hint_(i+1) when that value is present and non-blank
after trimming, and otherwise the fixed non-empty default of that slot. -/
theorem C1_hints_invariant (raw_text : Str) (hint_map : HintMap) :
    (parse raw_text hint_map).hints.length = 3 ∧
    (∀ h ∈ (parse raw_text hint_map).hints, strip h ≠ []) ∧
    (parse raw_text hint_map).hints =
      [resolveHint (getHint hint_map "hint_1") default_hint_1,
       resolveHint (getHint hint_map "hint_2") default_hint_2,
       resolveHint (getHint hint_map "hint_3") default_hint_3] ∧
    (∀ v d, resolveHint (some v) d = if strip v ≠ [] then strip v else d) ∧
    (∀ d, resolveHint Option.none d = d) :=
  ⟨rfl, parse_hints_nonblank raw_text hint_map, parse_hints_eq raw_text hint_map,
   resolveHint_some, fun _ => rfl⟩

/-- C1 witness at concrete input: the first default hint sits in the draft
parsed from the empty inputs and is non-blank, and there are 3 hints. -/
theorem C1_hints_invariant_w :
    strip default_hint_1 ≠ [] ∧ (parse [] []).hints.length = 3 :=
  ⟨(C1_hints_invariant [] []).2.1 default_hint_1 (by decide),
   (C1_hints_invariant [] []).1⟩

/-- C2 counterexample: a non-HINT line occurring after a HINT line still
feeds the description — the first HINT line does not terminate the
accumulation, so the claim's "lines after the first HINT line contribute
nothing" fails on this input (it would give description "A"). -/
theorem C2_cex :
    (parse "DESCRIPTION:\nA\nHINT_1: x\nB".data []).description = "A\nB".data ∧
    "A\nB".data ≠ "A".data := by decide

/-- C2 (amended): a line starting with HINT is skipped — it contributes
nothing and leaves the state, including the section, unchanged — but it
does not terminate accumulation: later non-HINT lines are still appended.
The cited example still yields "Line one\nLine two" since nothing follows
its HINT line. -/
theorem C2_hint_lines_skipped (st : ParseState) (l : Str)
    (h : hintMarker.isPrefixOf (strip l) = true) :
    processLine st l = st ∧
    (parse "DESCRIPTION:\nLine one\nLine two\nHINT_1: foo".data []).description =
      "Line one\nLine two".data ∧
    (parse "DESCRIPTION:\nA\nHINT_1: x\nB".data []).description = "A\nB".data :=
  ⟨processLine_hint st l h, by decide, by decide⟩

/-- C2 witness at concrete input: a HINT line leaves the description-mode
state untouched. -/
theorem C2_hint_lines_skipped_w :
    processLine ⟨[], [], Section.description⟩ "HINT_1: x".data =
      ⟨[], [], Section.description⟩ :=
  (C2_hint_lines_skipped ⟨[], [], Section.description⟩ "HINT_1: x".data
    (by decide)).1

/-- C3 counterexample: the code removes every occurrence of "TITLE:" from
the line (Python `replace`), so text containing a further "TITLE:" is not
preserved verbatim: the claim predicts title "A TITLE: B" here. -/
theorem C3_cex :
    (parse "TITLE: A TITLE: B".data []).title = "A  B".data ∧
    "A  B".data ≠ "A TITLE: B".data := by decide

/-- C3 (amended): a TITLE: line sets the title to the line with every
occurrence of the substring "TITLE:" removed and the result trimmed; when
the remainder contains no further occurrence this coincides with the text
after the marker, trimmed, as in the spec example. -/
theorem C3_title_extraction (st : ParseState) (l : Str)
    (h : titleMarker.isPrefixOf (strip l) = true) :
    processLine st l =
      { st with title := strip (removeAll titleMarker (strip l)),
                current_section := Section.title } ∧
    (parse "TITLE: Sort an Array\nDESCRIPTION:\nDo it fast".data []).title =
      "Sort an Array".data :=
  ⟨processLine_title st l h, by decide⟩

/-- C3 witness at concrete input: the replace-all extraction evaluated on
the double-marker line. -/
theorem C3_title_extraction_w :
    processLine ⟨[], [], Section.none⟩ "TITLE: A TITLE: B".data =
      ⟨"A  B".data, [], Section.title⟩ :=
  ((C3_title_extraction ⟨[], [], Section.none⟩ "TITLE: A TITLE: B".data
      (by decide)).1).trans (by decide)

/-- C4 counterexample: the stored fallback is not the same message for
every failing request — it interpolates the requesting username. -/
theorem C4_cex :
    (submit_solution "alice" (Except.error "boom")).ai_feedback ≠
      (submit_solution "bob" (Except.error "boom")).ai_feedback := by decide

/-- C4 (amended): when the AI feedback call raises, the exception is
caught, the solution is still saved, and ai_feedback is set to the fixed
encouraging fallback template instantiated with the requesting username —
independent of the exception, though not of the username. -/
theorem C4_feedback_fallback (username e : String) :
    (submit_solution username (Except.error e)).saved = true ∧
    (submit_solution username (Except.error e)).ai_feedback =
      fallback_feedback username ∧
    ∀ e2 : String, submit_solution username (Except.error e) =
      submit_solution username (Except.error e2) :=
  ⟨rfl, rfl, fun _ => rfl⟩

/-- C5: the parser is a total function: every input yields a draft with a
non-empty title, 3 non-blank hints, empty inputs yield the all-defaults
draft, and marker-less raw text with an empty hint mapping also yields the
all-defaults draft. -/
theorem C5_parse_total (raw_text : Str) (hint_map : HintMap) :
    (parse raw_text hint_map).title ≠ [] ∧
    (parse raw_text hint_map).hints.length = 3 ∧
    (∀ h ∈ (parse raw_text hint_map).hints, strip h ≠ []) ∧
    parse [] [] = ⟨"AI Generated Challenge".data, [], default_hints⟩ ∧
    ((∀ l ∈ splitOnNl (strip raw_text),
        titleMarker.isPrefixOf (strip l) = false ∧
        descriptionMarker.isPrefixOf (strip l) = false) →
      parse raw_text [] = ⟨"AI Generated Challenge".data, [], default_hints⟩) := by
  refine ⟨?_, rfl, parse_hints_nonblank raw_text hint_map, by decide, ?_⟩
  · rw [parse_title_eq]
    split_ifs with h
    · decide
    · exact h
  · intro hml
    have hT := foldl_title_eq (splitOnNl (strip raw_text)) ⟨[], [], Section.none⟩
      (fun l hl => (hml l hl).1)
    have hD := (foldl_description_eq (splitOnNl (strip raw_text))
      ⟨[], [], Section.none⟩ (fun l hl => (hml l hl).2) (by decide)).1
    have h1 : (parse raw_text []).title = "AI Generated Challenge".data := by
      rw [parse_title_eq, hT]; rfl
    have h2 : (parse raw_text []).description = [] := by
      rw [parse_description_eq, hD]; rfl
    calc parse raw_text [] =
        ⟨(parse raw_text []).title, (parse raw_text []).description,
         (parse raw_text []).hints⟩ := rfl
      _ = ⟨"AI Generated Challenge".data, [], default_hints⟩ := by
          rw [h1, h2, parse_hints_eq]; rfl

/-- C5 witness at concrete input: a marker-less text with an empty hint
mapping produces the all-defaults draft, whose hints are non-blank. -/
theorem C5_parse_total_w :
    strip default_hint_2 ≠ [] ∧
    parse "no markers here".data [] =
      ⟨"AI Generated Challenge".data, [], default_hints⟩ :=
  ⟨(C5_parse_total [] []).2.2.1 default_hint_2 (by decide),
   (C5_parse_total "no markers here".data []).2.2.2.2 (by decide)⟩

/-- C6: hint fallback is decided independently per slot: each slot is a
function of its own key only; an absent, null, or blank value yields that
slot's own default, other slots unaffected, as in the cited example. -/
theorem C6_hint_slot_fallback (raw_text : Str) (hint_map : HintMap) (d s : Str)
    (hs : strip s = []) :
    (parse raw_text hint_map).hints =
      [resolveHint (getHint hint_map "hint_1") default_hint_1,
       resolveHint (getHint hint_map "hint_2") default_hint_2,
       resolveHint (getHint hint_map "hint_3") default_hint_3] ∧
    resolveHint Option.none d = d ∧
    resolveHint (some s) d = d ∧
    (parse [] [("hint_1", some "  ".data), ("hint_2", some "Check bounds".data),
               ("hint_3", Option.none)]).hints =
      [default_hint_1, "Check bounds".data, default_hint_3] := by
  refine ⟨parse_hints_eq raw_text hint_map, rfl, ?_, by decide⟩
  rw [resolveHint_some]
  simp [hs]

/-- C6 witness at concrete input: a whitespace-only hint value falls back
to the given default. -/
theorem C6_hint_slot_fallback_w :
    resolveHint (some "  ".data) "x".data = "x".data :=
  (C6_hint_slot_fallback [] [] "x".data "  ".data (by decide)).2.2.1

/-- C7: when the TITLE: marker occurs on several lines, the last such line
wins: after scanning any line list whose suffix past the last TITLE: line
has no further TITLE: line, the title is the one extracted from that line,
whatever came before; the cited example yields "Second". -/
theorem C7_last_title_wins (st : ParseState) (pre post : List Str) (l : Str)
    (hl : titleMarker.isPrefixOf (strip l) = true)
    (hpost : ∀ l2 ∈ post, titleMarker.isPrefixOf (strip l2) = false) :
    (List.foldl processLine st (pre ++ l :: post)).title =
      strip (removeAll titleMarker (strip l)) ∧
    (parse "TITLE: First\nTITLE: Second".data []).title = "Second".data := by
  constructor
  · rw [List.foldl_append, List.foldl_cons, foldl_title_eq post _ hpost,
      processLine_title _ _ hl]
  · decide

/-- C7 witness at concrete input: a TITLE: line surrounded by non-TITLE
lines determines the title. -/
theorem C7_last_title_wins_w :
    (List.foldl processLine ⟨[], [], Section.none⟩
        (["junk".data] ++ "TITLE: Winner".data :: ["after".data])).title =
      "Winner".data :=
  ((C7_last_title_wins ⟨[], [], Section.none⟩ ["junk".data] ["after".data]
      "TITLE: Winner".data (by decide) (by decide)).1).trans (by decide)

/-- C8: any trailing content on a DESCRIPTION: line is discarded — such a
line only switches the section, leaving title and description untouched,
so only subsequent lines feed the description. -/
theorem C8_description_marker_discards (st : ParseState) (l : Str)
    (h : descriptionMarker.isPrefixOf (strip l) = true) :
    processLine st l = { st with current_section := Section.description } ∧
    (parse "DESCRIPTION: dropped\nkept".data []).description = "kept".data :=
  ⟨processLine_description_marker st l h, by decide⟩

/-- C8 witness at concrete input: a DESCRIPTION: line with trailing text
only switches the section. -/
theorem C8_description_marker_discards_w :
    processLine ⟨[], [], Section.none⟩ "DESCRIPTION: junk".data =
      ⟨[], [], Section.description⟩ :=
  ((C8_description_marker_discards ⟨[], [], Section.none⟩
      "DESCRIPTION: junk".data (by decide)).1).trans (by decide)

/-- C9: the backfill visits every row; a row with blank/unset
correctness_level becomes "correct" when is_correct holds and "incorrect"
otherwise, and a row whose correctness_level is already non-blank is kept
unchanged. -/
theorem C9_backfill_cases (rows : List ChallengeSolution) (i : Nat)
    (s : ChallengeSolution) :
    (run_backfill rows)[i]? =
      Option.map set_default_correctness_level rows[i]? ∧
    (s.is_correct = true → blank_or_unset s.correctness_level = true →
      (set_default_correctness_level s).correctness_level = some "correct") ∧
    (s.is_correct = false → blank_or_unset s.correctness_level = true →
      (set_default_correctness_level s).correctness_level = some "incorrect") ∧
    (blank_or_unset s.correctness_level = false →
      set_default_correctness_level s = s) := by
  refine ⟨by simp [run_backfill], ?_, ?_, ?_⟩
  · intro h1 h2
    simp [set_default_correctness_level, h1, h2]
  · intro h1 h2
    simp [set_default_correctness_level, h1, h2]
  · intro h1
    simp [set_default_correctness_level, h1]

/-- C9 witness at concrete inputs: the three row shapes and the mapped
list. -/
theorem C9_backfill_cases_w :
    (set_default_correctness_level ⟨true, some ""⟩).correctness_level =
      some "correct" ∧
    (set_default_correctness_level ⟨false, Option.none⟩).correctness_level =
      some "incorrect" ∧
    set_default_correctness_level ⟨true, some "already_set"⟩ =
      ⟨true, some "already_set"⟩ ∧
    (run_backfill [⟨true, some ""⟩])[0]? = some ⟨true, some "correct"⟩ :=
  ⟨(C9_backfill_cases [] 0 ⟨true, some ""⟩).2.1 rfl rfl,
   (C9_backfill_cases [] 0 ⟨false, Option.none⟩).2.2.1 rfl rfl,
   (C9_backfill_cases [] 0 ⟨true, some "already_set"⟩).2.2.2 rfl,
   ((C9_backfill_cases [⟨true, some ""⟩] 0 ⟨true, Option.none⟩).1).trans
     (by decide)⟩

/-- C10: every challenge built by generate_ai_challenge has
is_ai_generated and is_approved set to true, for every difficulty, topic
and generation result, and hence passes the approved-only filter used by
the listing and detail views whenever it is stored. -/
theorem C10_ai_auto_approved (difficulty topic : String) (result : GenResult)
    (db : List Challenge)
    (hdb : generate_ai_challenge difficulty topic result ∈ db) :
    (generate_ai_challenge difficulty topic result).is_ai_generated = true ∧
    (generate_ai_challenge difficulty topic result).is_approved = true ∧
    generate_ai_challenge difficulty topic result ∈ challenge_list_filter db := by
  refine ⟨rfl, rfl, ?_⟩
  simp only [challenge_list_filter, List.mem_filter]
  exact ⟨hdb, rfl⟩

/-- C10 witness at concrete input: a freshly generated challenge stored in
a one-element database is returned by the approved-only filter. -/
theorem C10_ai_auto_approved_w :
    (generate_ai_challenge "beginner" "programming" ⟨[], []⟩).is_approved =
      true ∧
    generate_ai_challenge "beginner" "programming" ⟨[], []⟩ ∈
      challenge_list_filter
        [generate_ai_challenge "beginner" "programming" ⟨[], []⟩] := by
  have h := C10_ai_auto_approved "beginner" "programming" ⟨[], []⟩
    [generate_ai_challenge "beginner" "programming" ⟨[], []⟩] (by simp)
  exact ⟨h.2.1, h.2.2⟩

end BoostDev
